import Mathlib

/-!
Verification of the Iris Classification API (`app.py`) of this repository.

The HTTP handlers `predict` (`/predict`) and `predict_multiple`
(`/predict_multiple`) are shallowly embedded as pure Lean functions over a
JSON value type `J`.  JSON numbers (Python ints/floats) are modelled as
rationals `ℚ`.  Python operations that can raise (`key in data`,
`data[key]`, `data.get`, dict lookup in `SPECIES_MAP`, numeric coercion)
return `Except String`; the handlers' `try/except` blocks turn an `.error`
into the 500 response, exactly as in the source.

The trained classifier and the scaler are external collaborators loaded by
bootstrap code outside the handlers; they are modelled as opaque function
fields of the structures `Scaler` and `Model` (`transform`, `predict`,
`predict_proba`), as the spec prescribes ("opaque capabilities").
-/

/-- JSON values, as produced by `request.get_json()`. -/
inductive J where
  | null
  | bool (b : Bool)
  | num (q : ℚ)
  | str (s : String)
  | arr (xs : List J)
  | obj (kvs : List (String × J))

/-- First-match association-list lookup, modelling Python dict lookup
(parsed JSON objects have unique keys). -/
def jLookup : List (String × J) → String → Option J
  | [], _ => none
  | (k', v) :: rest, k => if k' = k then some v else jLookup rest k

/-- `b == a && listStartsWith as bs` style character-list comparison used by
the substring test below. -/
def listStartsWith : List Char → List Char → Bool
  | [], _ => true
  | _ :: _, [] => false
  | a :: as, b :: bs => a == b && listStartsWith as bs

/-- `need` occurs as a contiguous sublist of `hay`.  Models Python's
substring containment `need in hay` for strings. -/
def listHasSub (need hay : List Char) : Bool :=
  (List.range (hay.length + 1)).any fun i => listStartsWith need (hay.drop i)

/-- Python's `key in data`.  On a dict it is key membership; on a list,
membership of the string among the elements; on a string, substring
containment.  On `None`, numbers and booleans the `in` operator raises
`TypeError` (argument not iterable). -/
def pyContains (data : J) (key : String) : Except String Bool :=
  match data with
  | .obj kvs => .ok (jLookup kvs key).isSome
  | .arr xs => .ok (xs.any fun x => match x with | .str s => s == key | _ => false)
  | .str s => .ok (listHasSub key.data s.data)
  | .null => .error "argument of type NoneType is not iterable"
  | .bool _ => .error "argument of type bool is not iterable"
  | .num _ => .error "argument of type int or float is not iterable"

/-- Python's `data[key]` for a string key: dict lookup raising `KeyError`
when absent; `TypeError` on lists, strings and other non-dict values. -/
def pyGetItem (data : J) (key : String) : Except String J :=
  match data with
  | .obj kvs =>
    match jLookup kvs key with
    | some v => .ok v
    | none => .error ("KeyError: " ++ key)
  | .arr _ => .error "TypeError: list indices must be integers"
  | .str _ => .error "TypeError: string indices must be integers"
  | _ => .error "TypeError: object is not subscriptable"

/-- Python's `data.get(key, default)`: only dicts have `.get`; every other
value raises `AttributeError`. -/
def pyDictGet (data : J) (key : String) (dflt : J) : Except String J :=
  match data with
  | .obj kvs => .ok ((jLookup kvs key).getD dflt)
  | _ => .error "AttributeError: object has no attribute get"

/-- Python truthiness of a JSON value (`if not samples:`). -/
def pyTruthy : J → Bool
  | .null => false
  | .bool b => b
  | .num q => q != 0
  | .str s => !(s = "")
  | .arr xs => !xs.isEmpty
  | .obj kvs => !kvs.isEmpty

/-- Numeric view of a JSON value, as used by the range comparisons and by
`scaler.transform` / `float(...)`: numbers are themselves, Python booleans
are the ints 0/1, anything else raises `TypeError`. -/
def pyNum : J → Except String ℚ
  | .num q => .ok q
  | .bool b => .ok (if b then 1 else 0)
  | _ => .error "TypeError: value is not a number"

/-- Python iteration `for ... in samples`: lists yield elements, strings
yield one-character strings, dicts yield their keys; `None`, numbers and
booleans raise `TypeError`. -/
def pyIter : J → Except String (List J)
  | .arr xs => .ok xs
  | .str s => .ok (s.data.map fun c => J.str (String.mk [c]))
  | .obj kvs => .ok (kvs.map fun kv => J.str kv.1)
  | _ => .error "TypeError: object is not iterable"

/-- The feature scaler collaborator: `scaler.transform` on one
4-feature row (`app.py` always passes a single-row 2-D array and takes
row 0 of the result). -/
structure Scaler where
  transform : ℚ × ℚ × ℚ × ℚ → ℚ × ℚ × ℚ × ℚ

/-- The trained classifier collaborator: `model.predict` yields a class
index, `model.predict_proba` a row of three class probabilities. -/
structure Model where
  predict : ℚ × ℚ × ℚ × ℚ → ℕ
  predict_proba : ℚ × ℚ × ℚ × ℚ → ℚ × ℚ × ℚ

/-- `SPECIES_MAP = {0: 'setosa', 1: 'versicolor', 2: 'virginica'}`
(`app.py` line 46). -/
def SPECIES_MAP : List (ℕ × String) :=
  [(0, "setosa"), (1, "versicolor"), (2, "virginica")]

/-- `SPECIES_MAP[prediction]`: dict indexing, `KeyError` when the class
index is not 0, 1 or 2. -/
def speciesLookup (n : ℕ) : Except String String :=
  match SPECIES_MAP.lookup n with
  | some s => .ok s
  | none => .error "KeyError: prediction index"

/-- `required_features = ['sepal_length', 'sepal_width', 'petal_length',
'petal_width']` (`app.py` line 64). -/
def required_features : List String :=
  ["sepal_length", "sepal_width", "petal_length", "petal_width"]

/-- `all(feature in data for feature in required_features)`: left-to-right
with short-circuit on the first `False`; a raising membership test aborts. -/
def allContains (data : J) : List String → Except String Bool
  | [] => .ok true
  | f :: rest =>
    match pyContains data f with
    | .error e => .error e
    | .ok false => .ok false
    | .ok true => allContains data rest

/-- The rational 9/2, in kernel-computable normal form. -/
def q45 : ℚ := Rat.mk' 9 2

/-- The rational 1/10, in kernel-computable normal form. -/
def q01 : ℚ := Rat.mk' 1 10

/-- The rational 5/2, in kernel-computable normal form. -/
def q25 : ℚ := Rat.mk' 5 2

lemma q45_eq : q45 = 4.5 := by
  unfold q45; rw [Rat.mk'_eq_divInt, Rat.divInt_eq_div]; norm_num

lemma q01_eq : q01 = 0.1 := by
  unfold q01; rw [Rat.mk'_eq_divInt, Rat.divInt_eq_div]; norm_num

lemma q25_eq : q25 = 2.5 := by
  unfold q25; rw [Rat.mk'_eq_divInt, Rat.divInt_eq_div]; norm_num

/-- The range check of `app.py` lines 78–81:
`4 <= sepal_length <= 8 and 2 <= sepal_width <= 4.5 and
1 <= petal_length <= 7 and 0.1 <= petal_width <= 2.5`. -/
def rangeOk (sl sw pl pw : ℚ) : Prop :=
  (4 ≤ sl ∧ sl ≤ 8) ∧ (2 ≤ sw ∧ sw ≤ 4.5) ∧ (1 ≤ pl ∧ pl ≤ 7) ∧ (0.1 ≤ pw ∧ pw ≤ 2.5)

/-- A `Decidable` instance for `rangeOk` that the kernel can evaluate on
concrete rationals (the scientific-notation literals 4.5, 0.1, 2.5 do not
reduce definitionally, so they are routed through `q45`, `q01`, `q25`). -/
instance rangeOk.dec (sl sw pl pw : ℚ) : Decidable (rangeOk sl sw pl pw) :=
  decidable_of_iff
    ((4 ≤ sl ∧ sl ≤ 8) ∧ (2 ≤ sw ∧ sw ≤ q45) ∧ (1 ≤ pl ∧ pl ≤ 7) ∧
      (q01 ≤ pw ∧ pw ≤ q25))
    (by rw [q45_eq, q01_eq, q25_eq]; exact Iff.rfl)

/-- `float(max(probabilities))` over the 3-element probability row. -/
def max3 (p : ℚ × ℚ × ℚ) : ℚ := max p.1 (max p.2.1 p.2.2)

/-- The 400 body of `app.py` lines 66–69. -/
def missingFeaturesBody : J :=
  J.obj [("error", J.str "Missing required features"),
         ("required", J.arr (required_features.map J.str))]

/-- The out-of-range 200 body of `app.py` lines 82–85. -/
def outOfRangeBody : J :=
  J.obj [("warning", J.str "Measurements outside typical Iris range"),
         ("predicted_species", J.str "unknown")]

/-- The successful 200 body of `app.py` lines 97–111, for measurements
`(sl, sw, pl, pw)`, probability row `P` and species name `species`. -/
def successResp (sl sw pl pw : ℚ) (P : ℚ × ℚ × ℚ) (species : String) : J :=
  J.obj [("predicted_species", J.str species),
         ("confidence", J.num (max3 P)),
         ("probabilities", J.obj
           [("setosa", J.num P.1), ("versicolor", J.num P.2.1),
            ("virginica", J.num P.2.2)]),
         ("measurements", J.obj
           [("sepal_length", J.num sl), ("sepal_width", J.num sw),
            ("petal_length", J.num pl), ("petal_width", J.num pw)])]

/-- The body of the try-block of `predict` (`app.py` lines 60–111); an
`.error` models an exception reaching the `except` clause. -/
def predictTry (scaler : Scaler) (model : Model) (data : J) :
    Except String (ℕ × J) :=
  match allContains data required_features with
  | .error e => .error e
  | .ok false => .ok (400, missingFeaturesBody)
  | .ok true =>
    match pyGetItem data "sepal_length" with
    | .error e => .error e
    | .ok slv =>
    match pyGetItem data "sepal_width" with
    | .error e => .error e
    | .ok swv =>
    match pyGetItem data "petal_length" with
    | .error e => .error e
    | .ok plv =>
    match pyGetItem data "petal_width" with
    | .error e => .error e
    | .ok pwv =>
    match pyNum slv with
    | .error e => .error e
    | .ok sl =>
    match pyNum swv with
    | .error e => .error e
    | .ok sw =>
    match pyNum plv with
    | .error e => .error e
    | .ok pl =>
    match pyNum pwv with
    | .error e => .error e
    | .ok pw =>
    if rangeOk sl sw pl pw then
      let features_scaled := scaler.transform (sl, sw, pl, pw)
      let prediction := model.predict features_scaled
      let probabilities := model.predict_proba features_scaled
      match speciesLookup prediction with
      | .error e => .error e
      | .ok species =>
        .ok (200, successResp sl sw pl pw probabilities species)
    else
      .ok (200, outOfRangeBody)

/-- The `/predict` handler (`app.py` lines 57–117): try-block result, with
any exception mapped to the 500 "Prediction failed" response. -/
def predict (scaler : Scaler) (model : Model) (data : J) : ℕ × J :=
  match predictTry scaler model data with
  | .ok r => r
  | .error m => (500, J.obj [("error", J.str "Prediction failed"),
                             ("message", J.str m)])

/-- The per-sample result dict of `app.py` lines 141–146:
`{sample_id, predicted_species, confidence, measurements}` with the raw
sample echoed (note: no `probabilities` entry). -/
def sampleEntry (i : ℕ) (species : String) (P : ℚ × ℚ × ℚ) (sample : J) : J :=
  J.obj [("sample_id", J.num i),
         ("predicted_species", J.str species),
         ("confidence", J.num (max3 P)),
         ("measurements", sample)]

/-- One iteration of the loop of `app.py` lines 130–146: extract the four
features of `sample`, scale, classify, and build the per-sample result
dict `{sample_id, predicted_species, confidence, measurements}`. -/
def processSample (scaler : Scaler) (model : Model) (i : ℕ) (sample : J) :
    Except String J :=
  match pyGetItem sample "sepal_length" with
  | .error e => .error e
  | .ok slv =>
  match pyGetItem sample "sepal_width" with
  | .error e => .error e
  | .ok swv =>
  match pyGetItem sample "petal_length" with
  | .error e => .error e
  | .ok plv =>
  match pyGetItem sample "petal_width" with
  | .error e => .error e
  | .ok pwv =>
  match pyNum slv with
  | .error e => .error e
  | .ok sl =>
  match pyNum swv with
  | .error e => .error e
  | .ok sw =>
  match pyNum plv with
  | .error e => .error e
  | .ok pl =>
  match pyNum pwv with
  | .error e => .error e
  | .ok pw =>
  let features_scaled := scaler.transform (sl, sw, pl, pw)
  let prediction := model.predict features_scaled
  let probabilities := model.predict_proba features_scaled
  match speciesLookup prediction with
  | .error e => .error e
  | .ok species => .ok (sampleEntry i species probabilities sample)

/-- `for i, sample in enumerate(samples): ... results.append(...)`: process
samples in order, indexed from `i0`; the first exception aborts the whole
loop (no partial results survive, as in the source's try-block). -/
def processSamples (scaler : Scaler) (model : Model) :
    List J → ℕ → Except String (List J)
  | [], _ => .ok []
  | s :: rest, i =>
    match processSample scaler model i s with
    | .error e => .error e
    | .ok entry =>
      match processSamples scaler model rest (i + 1) with
      | .error e => .error e
      | .ok others => .ok (entry :: others)

/-- The 400 body of `app.py` line 127. -/
def noSamplesBody : J := J.obj [("error", J.str "No samples provided")]

/-- The body of the try-block of `predict_multiple` (`app.py` lines
122–151). -/
def predictMultipleTry (scaler : Scaler) (model : Model) (data : J) :
    Except String (ℕ × J) :=
  match pyDictGet data "samples" (J.arr []) with
  | .error e => .error e
  | .ok samples =>
    if pyTruthy samples then
      match pyIter samples with
      | .error e => .error e
      | .ok items =>
        match processSamples scaler model items 0 with
        | .error e => .error e
        | .ok results =>
          .ok (200, J.obj [("total_samples", J.num results.length),
                           ("predictions", J.arr results)])
    else
      .ok (400, noSamplesBody)

/-- The `/predict_multiple` handler (`app.py` lines 119–157): try-block
result, with any exception mapped to the 500 "Batch prediction failed"
response. -/
def predict_multiple (scaler : Scaler) (model : Model) (data : J) : ℕ × J :=
  match predictMultipleTry scaler model data with
  | .ok r => r
  | .error m => (500, J.obj [("error", J.str "Batch prediction failed"),
                             ("message", J.str m)])

/-- Request body carrying exactly the four canonical numeric features. -/
def mkBody4 (sl sw pl pw : ℚ) : J :=
  J.obj [("sepal_length", J.num sl), ("sepal_width", J.num sw),
         ("petal_length", J.num pl), ("petal_width", J.num pw)]

/-- Key presence in a JSON object response body. -/
def hasKey (body : J) (k : String) : Bool :=
  match body with
  | .obj kvs => (jLookup kvs k).isSome
  | _ => false

/-- Field access in a JSON object response body. -/
def getKey (body : J) (k : String) : Option J :=
  match body with
  | .obj kvs => jLookup kvs k
  | _ => none

/-- A scaler instance for concrete witnesses: the identity transform. -/
def idScaler : Scaler := ⟨fun v => v⟩

/-- A classifier instance for concrete witnesses: always class 0 with the
distribution (1, 0, 0). -/
def constModel : Model := ⟨fun _ => 0, fun _ => (1, 0, 0)⟩

/-- The species name for a class index below 3, closed form of the
`SPECIES_MAP` lookup. -/
def speciesName : ℕ → String
  | 0 => "setosa"
  | 1 => "versicolor"
  | _ => "virginica"

lemma speciesLookup_lt3 (n : ℕ) (h : n < 3) :
    speciesLookup n = .ok (speciesName n) := by
  interval_cases n <;> rfl

lemma speciesName_mem (n : ℕ) :
    speciesName n ∈ ["setosa", "versicolor", "virginica"] := by
  rcases n with _ | _ | n <;> simp [speciesName]

lemma speciesName_ne_unknown (n : ℕ) : speciesName n ≠ "unknown" := by
  rcases n with _ | _ | n <;> simp [speciesName]

/-- On a complete four-feature numeric body, `predictTry` reduces to the
range check followed by the classify-and-assemble step. -/
lemma predictTry_mkBody4 (scaler : Scaler) (model : Model) (sl sw pl pw : ℚ) :
    predictTry scaler model (mkBody4 sl sw pl pw) =
      if rangeOk sl sw pl pw then
        match speciesLookup (model.predict (scaler.transform (sl, sw, pl, pw))) with
        | .error e => .error e
        | .ok species =>
          .ok (200, successResp sl sw pl pw
            (model.predict_proba (scaler.transform (sl, sw, pl, pw))) species)
      else .ok (200, outOfRangeBody) := rfl

lemma predict_mkBody4_out (scaler : Scaler) (model : Model) (sl sw pl pw : ℚ)
    (hr : ¬ rangeOk sl sw pl pw) :
    predict scaler model (mkBody4 sl sw pl pw) = (200, outOfRangeBody) := by
  unfold predict
  rw [predictTry_mkBody4, if_neg hr]

lemma predict_mkBody4_ok (scaler : Scaler) (model : Model) (sl sw pl pw : ℚ)
    (hr : rangeOk sl sw pl pw)
    (hidx : model.predict (scaler.transform (sl, sw, pl, pw)) < 3) :
    predict scaler model (mkBody4 sl sw pl pw) =
      (200, successResp sl sw pl pw
        (model.predict_proba (scaler.transform (sl, sw, pl, pw)))
        (speciesName (model.predict (scaler.transform (sl, sw, pl, pw))))) := by
  unfold predict
  rw [predictTry_mkBody4, if_pos hr, speciesLookup_lt3 _ hidx]

/-- `all(feature in data for feature in required_features)` on a dict body
is the boolean conjunction of key presence. -/
lemma allContains_obj (kvs : List (String × J)) (fs : List String) :
    allContains (J.obj kvs) fs = .ok (fs.all fun f => (jLookup kvs f).isSome) := by
  induction fs with
  | nil => rfl
  | cons f rest ih =>
    simp only [allContains, pyContains, List.all_cons]
    cases hf : (jLookup kvs f).isSome <;> simp [hf, ih]


/-- C2: for every complete feature vector with at least one of the four
values outside its closed RangeProfile interval, `/predict` skips the
scaler and classifier entirely (the response is the same fixed value for
every scaler and model) and returns HTTP 200 with
`predicted_species = "unknown"` and neither a `probabilities` nor a
`confidence` key in the body. -/
theorem predict_out_of_range_sentinel (scaler : Scaler) (model : Model)
    (sl sw pl pw : ℚ) (hr : ¬ rangeOk sl sw pl pw) :
    predict scaler model (mkBody4 sl sw pl pw) = (200, outOfRangeBody) ∧
    getKey outOfRangeBody "predicted_species" = some (J.str "unknown") ∧
    hasKey outOfRangeBody "probabilities" = false ∧
    hasKey outOfRangeBody "confidence" = false :=
  ⟨predict_mkBody4_out scaler model sl sw pl pw hr, rfl, rfl, rfl⟩

/-- Witness for C2 at the spec's own example `sepal_length = 9`. -/
theorem predict_out_of_range_sentinel_witness :
    ¬ rangeOk 9 3 2 1 ∧
    predict idScaler constModel (mkBody4 9 3 2 1) = (200, outOfRangeBody) :=
  ⟨by decide,
   (predict_out_of_range_sentinel idScaler constModel 9 3 2 1 (by decide)).1⟩

/-- C3: every `/predict` object body lacking at least one of the four
required keys gets HTTP 400 whose `required` field lists exactly the four
canonical names; the response is one fixed value, identical no matter
which subset of keys is missing (and for every scaler and model). -/
theorem predict_missing_features_400 (scaler : Scaler) (model : Model)
    (kvs : List (String × J))
    (h : ∃ f ∈ required_features, jLookup kvs f = none) :
    predict scaler model (J.obj kvs) = (400, missingFeaturesBody) ∧
    getKey missingFeaturesBody "required" =
      some (J.arr [J.str "sepal_length", J.str "sepal_width",
                   J.str "petal_length", J.str "petal_width"]) := by
  refine ⟨?_, rfl⟩
  obtain ⟨f, hfmem, hfnone⟩ := h
  have hall : (required_features.all fun f => (jLookup kvs f).isSome) = false := by
    apply List.all_eq_false.mpr
    exact ⟨f, hfmem, by simp [hfnone]⟩
  unfold predict predictTry
  rw [allContains_obj, hall]

/-- Witness for C3: a body with only `sepal_length` present. -/
theorem predict_missing_features_400_witness :
    (∃ f ∈ required_features,
       jLookup [("sepal_length", J.num 5)] f = none) ∧
    predict idScaler constModel (J.obj [("sepal_length", J.num 5)]) =
      (400, missingFeaturesBody) :=
  ⟨⟨"sepal_width", by simp [required_features], rfl⟩,
   (predict_missing_features_400 idScaler constModel [("sepal_length", J.num 5)]
     ⟨"sepal_width", by simp [required_features], rfl⟩).1⟩

/-- C8: a `/predict_multiple` request whose `samples` field is the empty
list gets HTTP 400 with body `{"error": "No samples provided"}`; the
response is the same fixed value for every scaler and model, so no
inference is performed. -/
theorem predict_multiple_empty_samples_400 (scaler : Scaler) (model : Model)
    (kvs : List (String × J)) (h : jLookup kvs "samples" = some (J.arr [])) :
    predict_multiple scaler model (J.obj kvs) = (400, noSamplesBody) := by
  unfold predict_multiple predictMultipleTry
  simp [pyDictGet, h, pyTruthy]

/-- Witness for C8 at the body `{"samples": []}`. -/
theorem predict_multiple_empty_samples_400_witness :
    jLookup [("samples", J.arr [])] "samples" = some (J.arr []) ∧
    predict_multiple idScaler constModel (J.obj [("samples", J.arr [])]) =
      (400, noSamplesBody) :=
  ⟨rfl, predict_multiple_empty_samples_400 idScaler constModel
    [("samples", J.arr [])] rfl⟩

/-- C9: a `/predict_multiple` object body whose `samples` key is absent
(so `data.get('samples', [])` defaults to the empty list) or maps to
`null` or any other falsy value is treated exactly like an empty batch:
HTTP 400 with `{"error": "No samples provided"}`. -/
theorem predict_multiple_falsy_samples_400 (scaler : Scaler) (model : Model)
    (kvs : List (String × J))
    (h : pyTruthy ((jLookup kvs "samples").getD (J.arr [])) = false) :
    predict_multiple scaler model (J.obj kvs) = (400, noSamplesBody) := by
  unfold predict_multiple predictMultipleTry
  simp [pyDictGet, h]

/-- Witness for C9 at a body that omits the `samples` key entirely. -/
theorem predict_multiple_falsy_samples_400_witness :
    pyTruthy ((jLookup ([] : List (String × J)) "samples").getD (J.arr [])) = false ∧
    predict_multiple idScaler constModel (J.obj []) = (400, noSamplesBody) :=
  ⟨rfl, predict_multiple_falsy_samples_400 idScaler constModel [] rfl⟩

/-- C10 counterexample: the claim says every non-mapping `/predict` body
makes the required-keys membership test raise, yielding HTTP 500.  But a
JSON array body supports Python's `in` operator: for the body `[]` the
membership test evaluates to `False` and the handler returns the 400
missing-features response, not 500. -/
theorem predict_array_body_400_not_500 :
    predict idScaler constModel (J.arr []) = (400, missingFeaturesBody) ∧
    (predict idScaler constModel (J.arr [])).1 ≠ 500 :=
  ⟨rfl, by decide⟩

/-- C10 amended: if the `/predict` body parses to JSON `null` (Python
`None`), a number, or a boolean, the membership test `feature in data`
raises `TypeError` inside the handler's catch-all, so the service returns
HTTP 500 with error "Prediction failed" rather than the 400
missing-features response; array and string bodies, in contrast, support
the `in` operator and do not take this path. -/
theorem predict_noniterable_body_500 (scaler : Scaler) (model : Model)
    (b : J)
    (h : b = J.null ∨ (∃ q, b = J.num q) ∨ (∃ bb, b = J.bool bb)) :
    ∃ m, predict scaler model b =
      (500, J.obj [("error", J.str "Prediction failed"),
                   ("message", J.str m)]) := by
  rcases h with rfl | ⟨q, rfl⟩ | ⟨bb, rfl⟩ <;> exact ⟨_, rfl⟩

/-- Witness for the amended C10 at the body `null`. -/
theorem predict_noniterable_body_500_witness :
    (J.null = J.null ∨ (∃ q, J.null = J.num q) ∨ (∃ bb, J.null = J.bool bb)) ∧
    ∃ m, predict idScaler constModel J.null =
      (500, J.obj [("error", J.str "Prediction failed"),
                   ("message", J.str m)]) :=
  ⟨Or.inl rfl,
   predict_noniterable_body_500 idScaler constModel J.null (Or.inl rfl)⟩

/-- The four numeric feature values of a sample mapping, when all four
canonical keys are present with numeric values. -/
def sampleNums (s : J) : Option (ℚ × ℚ × ℚ × ℚ) :=
  match getKey s "sepal_length", getKey s "sepal_width",
        getKey s "petal_length", getKey s "petal_width" with
  | some (J.num a), some (J.num b), some (J.num c), some (J.num d) =>
    some (a, b, c, d)
  | _, _, _, _ => none

/-- A sample the batch loop can fully process: the four numeric features
are present and the classifier maps its scaled vector to a valid class
index. -/
def goodSample (scaler : Scaler) (model : Model) (s : J) : Prop :=
  ∃ v, sampleNums s = some v ∧ model.predict (scaler.transform v) < 3

lemma pyGetItem_obj (kvs : List (String × J)) (f : String) (v : J)
    (h : jLookup kvs f = some v) : pyGetItem (J.obj kvs) f = .ok v := by
  simp [pyGetItem, h]

lemma processSample_ok (scaler : Scaler) (model : Model) (i : ℕ) (s : J)
    (v : ℚ × ℚ × ℚ × ℚ) (hv : sampleNums s = some v)
    (hidx : model.predict (scaler.transform v) < 3) :
    processSample scaler model i s =
      .ok (sampleEntry i (speciesName (model.predict (scaler.transform v)))
        (model.predict_proba (scaler.transform v)) s) := by
  cases s with
  | obj kvs =>
    simp only [sampleNums, getKey] at hv
    split at hv
    case _ a b c d h1 h2 h3 h4 =>
      cases hv
      unfold processSample
      rw [pyGetItem_obj kvs _ _ h1, pyGetItem_obj kvs _ _ h2,
          pyGetItem_obj kvs _ _ h3, pyGetItem_obj kvs _ _ h4]
      show (match speciesLookup (model.predict (scaler.transform (a, b, c, d))) with
            | .error e => Except.error e
            | .ok species => Except.ok (sampleEntry i species
                (model.predict_proba (scaler.transform (a, b, c, d))) (J.obj kvs))) = _
      rw [speciesLookup_lt3 _ hidx]
    case _ => exact absurd hv (by simp)
  | null => simp [sampleNums, getKey] at hv
  | bool b => simp [sampleNums, getKey] at hv
  | num q => simp [sampleNums, getKey] at hv
  | str s => simp [sampleNums, getKey] at hv
  | arr xs => simp [sampleNums, getKey] at hv

/-- The list of per-sample result dicts the loop produces on an
all-successful batch, starting at index `i`. -/
def entriesFrom (scaler : Scaler) (model : Model) : List J → ℕ → List J
  | [], _ => []
  | s :: rest, i =>
    sampleEntry i
      (speciesName (model.predict (scaler.transform ((sampleNums s).getD (0, 0, 0, 0)))))
      (model.predict_proba (scaler.transform ((sampleNums s).getD (0, 0, 0, 0)))) s
      :: entriesFrom scaler model rest (i + 1)

lemma entriesFrom_length (scaler : Scaler) (model : Model) (l : List J) :
    ∀ i, (entriesFrom scaler model l i).length = l.length := by
  induction l with
  | nil => intro i; rfl
  | cons s rest ih => intro i; simp [entriesFrom, ih]

lemma processSamples_ok (scaler : Scaler) (model : Model) (samples : List J)
    (hgood : ∀ s ∈ samples, goodSample scaler model s) :
    ∀ i, processSamples scaler model samples i =
      .ok (entriesFrom scaler model samples i) := by
  induction samples with
  | nil => intro i; rfl
  | cons s rest ih =>
    intro i
    obtain ⟨v, hv, hidx⟩ := hgood s (List.mem_cons_self s rest)
    have hrest := ih fun t ht => hgood t (List.mem_cons_of_mem s ht)
    unfold processSamples
    rw [processSample_ok scaler model i s v hv hidx, hrest (i + 1)]
    simp [entriesFrom, hv]

/-- Full characterization of a successful `/predict_multiple` call on a
non-empty, all-processable batch. -/
lemma predict_multiple_ok (scaler : Scaler) (model : Model) (samples : List J)
    (hne : samples ≠ [])
    (hgood : ∀ s ∈ samples, goodSample scaler model s) :
    predict_multiple scaler model (J.obj [("samples", J.arr samples)]) =
      (200, J.obj [("total_samples", J.num samples.length),
                   ("predictions", J.arr (entriesFrom scaler model samples 0))]) := by
  obtain ⟨a, l, rfl⟩ : ∃ a l, samples = a :: l := by
    cases samples with
    | nil => exact absurd rfl hne
    | cons a l => exact ⟨a, l, rfl⟩
  have key := processSamples_ok scaler model (a :: l) hgood 0
  have h2 : predictMultipleTry scaler model (J.obj [("samples", J.arr (a :: l))]) =
      .ok (200, J.obj
        [("total_samples", J.num ((entriesFrom scaler model (a :: l) 0).length : ℚ)),
         ("predictions", J.arr (entriesFrom scaler model (a :: l) 0))]) := by
    have hred : predictMultipleTry scaler model (J.obj [("samples", J.arr (a :: l))]) =
        (match processSamples scaler model (a :: l) 0 with
         | .error e => .error e
         | .ok results =>
           .ok (200, J.obj [("total_samples", J.num (results.length : ℚ)),
                            ("predictions", J.arr results)])) := rfl
    rw [hred, key]
  unfold predict_multiple
  rw [h2, entriesFrom_length]

lemma getKey_sampleEntry_id (i : ℕ) (sp : String) (P : ℚ × ℚ × ℚ) (s : J) :
    getKey (sampleEntry i sp P s) "sample_id" = some (J.num i) := rfl

lemma getKey_sampleEntry_species (i : ℕ) (sp : String) (P : ℚ × ℚ × ℚ) (s : J) :
    getKey (sampleEntry i sp P s) "predicted_species" = some (J.str sp) := rfl

lemma getKey_sampleEntry_conf (i : ℕ) (sp : String) (P : ℚ × ℚ × ℚ) (s : J) :
    getKey (sampleEntry i sp P s) "confidence" = some (J.num (max3 P)) := rfl

lemma getKey_sampleEntry_meas (i : ℕ) (sp : String) (P : ℚ × ℚ × ℚ) (s : J) :
    getKey (sampleEntry i sp P s) "measurements" = some s := rfl

lemma hasKey_sampleEntry_proba (i : ℕ) (sp : String) (P : ℚ × ℚ × ℚ) (s : J) :
    hasKey (sampleEntry i sp P s) "probabilities" = false := rfl

lemma entriesFrom_get (scaler : Scaler) (model : Model) (l : List J) :
    ∀ (i k : ℕ) (hk : k < l.length)
      (hk2 : k < (entriesFrom scaler model l i).length),
      (entriesFrom scaler model l i).get ⟨k, hk2⟩ =
        sampleEntry (i + k)
          (speciesName (model.predict (scaler.transform
            ((sampleNums (l.get ⟨k, hk⟩)).getD (0, 0, 0, 0)))))
          (model.predict_proba (scaler.transform
            ((sampleNums (l.get ⟨k, hk⟩)).getD (0, 0, 0, 0))))
          (l.get ⟨k, hk⟩) := by
  induction l with
  | nil => intro i k hk _; exact absurd hk (Nat.not_lt_zero k)
  | cons s rest ih =>
    intro i k hk hk2
    cases k with
    | zero => simp [entriesFrom]
    | succ k =>
      have hk' : k < rest.length := Nat.lt_of_succ_lt_succ hk
      have hk2' : k < (entriesFrom scaler model rest (i + 1)).length := by
        rw [entriesFrom_length]; exact hk'
      have := ih (i + 1) k hk' hk2'
      simp only [entriesFrom, List.get_cons_succ]
      rw [this]
      congr 1
      omega

lemma speciesName_optmem (n : ℕ) :
    some (J.str (speciesName n)) ∈
      [some (J.str "setosa"), some (J.str "versicolor"),
       some (J.str "virginica")] := by
  rcases n with _ | _ | n <;> simp [speciesName]

lemma mem_entriesFrom (scaler : Scaler) (model : Model) (l : List J) :
    ∀ i e, e ∈ entriesFrom scaler model l i →
      ∃ j s, s ∈ l ∧ e = sampleEntry j
        (speciesName (model.predict (scaler.transform
          ((sampleNums s).getD (0, 0, 0, 0)))))
        (model.predict_proba (scaler.transform
          ((sampleNums s).getD (0, 0, 0, 0)))) s := by
  induction l with
  | nil => intro i e he; exact absurd he (List.not_mem_nil e)
  | cons s rest ih =>
    intro i e he
    rcases List.mem_cons.mp he with rfl | he'
    · exact ⟨i, s, List.mem_cons_self s rest, rfl⟩
    · obtain ⟨j, t, ht, hte⟩ := ih (i + 1) e he'
      exact ⟨j, t, List.mem_cons_of_mem s ht, hte⟩

/-- C4: the batch pipeline performs no range check: for every non-empty
batch of samples each carrying the four numeric feature keys (with no
constraint whatsoever that the values lie in the RangeProfile intervals),
`/predict_multiple` invokes the scaler and classifier on every sample —
each entry's label is `SPECIES_MAP[model.predict(scaler.transform(v))]` —
and every entry carries a label from the three-species set, never
`"unknown"`. -/
theorem predict_multiple_no_range_check (scaler : Scaler) (model : Model)
    (samples : List J) (hne : samples ≠ [])
    (hgood : ∀ s ∈ samples, goodSample scaler model s) :
    predict_multiple scaler model (J.obj [("samples", J.arr samples)]) =
      (200, J.obj [("total_samples", J.num (samples.length : ℚ)),
                   ("predictions", J.arr (entriesFrom scaler model samples 0))]) ∧
    ∀ e ∈ entriesFrom scaler model samples 0,
      getKey e "predicted_species" ≠ some (J.str "unknown") ∧
      ∃ sp ∈ ["setosa", "versicolor", "virginica"],
        getKey e "predicted_species" = some (J.str sp) := by
  refine ⟨predict_multiple_ok scaler model samples hne hgood, fun e he => ?_⟩
  obtain ⟨j, s, hs, rfl⟩ := mem_entriesFrom scaler model samples 0 e he
  set n := model.predict (scaler.transform ((sampleNums s).getD (0, 0, 0, 0)))
  refine ⟨?_, speciesName n, ?_, rfl⟩
  · rw [getKey_sampleEntry_species]
    intro hcontra
    have : speciesName n = "unknown" := by
      simpa using hcontra
    exact speciesName_ne_unknown n this
  · have := speciesName_mem n
    simpa using this

/-- Witness for C4, reproducing the spec's scenario: one in-range sample
and one wildly out-of-range sample (`petal_width = 99`); the batch still
returns only labeled, non-`unknown` predictions. -/
theorem predict_multiple_no_range_check_witness :
    ([mkBody4 5 3 2 1, mkBody4 6 3 5 99] : List J) ≠ [] ∧
    (∀ s ∈ ([mkBody4 5 3 2 1, mkBody4 6 3 5 99] : List J),
      goodSample idScaler constModel s) ∧
    ∀ e ∈ entriesFrom idScaler constModel [mkBody4 5 3 2 1, mkBody4 6 3 5 99] 0,
      getKey e "predicted_species" ≠ some (J.str "unknown") := by
  have hg : ∀ s ∈ ([mkBody4 5 3 2 1, mkBody4 6 3 5 99] : List J),
      goodSample idScaler constModel s := by
    intro s hs
    rcases List.mem_cons.mp hs with rfl | hs2
    · exact ⟨(5, 3, 2, 1), rfl, by decide⟩
    · rcases List.mem_cons.mp hs2 with rfl | hs3
      · exact ⟨(6, 3, 5, 99), rfl, by decide⟩
      · exact absurd hs3 (List.not_mem_nil s)
  refine ⟨by simp, hg, fun e he => ?_⟩
  exact ((predict_multiple_no_range_check idScaler constModel
    [mkBody4 5 3 2 1, mkBody4 6 3 5 99] (by simp) hg).2 e he).1

/-- C7: on a non-empty batch of N fully-processable samples,
`/predict_multiple` answers 200 with `total_samples = N`, a `predictions`
array of length N in input order, each entry's `sample_id` equal to its
zero-based position, and each entry echoing its raw input mapping
unchanged under `measurements`. -/
theorem predict_multiple_batch_indexing (scaler : Scaler) (model : Model)
    (samples : List J) (hne : samples ≠ [])
    (hgood : ∀ s ∈ samples, goodSample scaler model s) :
    predict_multiple scaler model (J.obj [("samples", J.arr samples)]) =
      (200, J.obj [("total_samples", J.num (samples.length : ℚ)),
                   ("predictions", J.arr (entriesFrom scaler model samples 0))]) ∧
    (entriesFrom scaler model samples 0).length = samples.length ∧
    ∀ k (hk : k < samples.length),
      getKey ((entriesFrom scaler model samples 0).get
        ⟨k, by rw [entriesFrom_length]; exact hk⟩) "sample_id" =
          some (J.num (k : ℚ)) ∧
      getKey ((entriesFrom scaler model samples 0).get
        ⟨k, by rw [entriesFrom_length]; exact hk⟩) "measurements" =
          some (samples.get ⟨k, hk⟩) := by
  refine ⟨predict_multiple_ok scaler model samples hne hgood,
    entriesFrom_length scaler model samples 0, fun k hk => ?_⟩
  rw [entriesFrom_get scaler model samples 0 k hk]
  refine ⟨?_, getKey_sampleEntry_meas _ _ _ _⟩
  rw [getKey_sampleEntry_id]
  norm_num

/-- Witness for C7 on the two-sample batch. -/
theorem predict_multiple_batch_indexing_witness :
    ([mkBody4 5 3 2 1, mkBody4 6 3 5 2] : List J) ≠ [] ∧
    (∀ s ∈ ([mkBody4 5 3 2 1, mkBody4 6 3 5 2] : List J),
      goodSample idScaler constModel s) ∧
    predict_multiple idScaler constModel
      (J.obj [("samples", J.arr [mkBody4 5 3 2 1, mkBody4 6 3 5 2])]) =
      (200, J.obj [("total_samples", J.num (2 : ℚ)),
        ("predictions", J.arr
          (entriesFrom idScaler constModel [mkBody4 5 3 2 1, mkBody4 6 3 5 2] 0))]) := by
  have hg : ∀ s ∈ ([mkBody4 5 3 2 1, mkBody4 6 3 5 2] : List J),
      goodSample idScaler constModel s := by
    intro s hs
    rcases List.mem_cons.mp hs with rfl | hs2
    · exact ⟨(5, 3, 2, 1), rfl, by decide⟩
    · rcases List.mem_cons.mp hs2 with rfl | hs3
      · exact ⟨(6, 3, 5, 2), rfl, by decide⟩
      · exact absurd hs3 (List.not_mem_nil s)
  refine ⟨by simp, hg, ?_⟩
  have h := (predict_multiple_batch_indexing idScaler constModel
    [mkBody4 5 3 2 1, mkBody4 6 3 5 2] (by simp) hg).1
  simpa using h

/-- C6 counterexample: the claim says every successful `/predict_multiple`
entry is a full PredictionResult carrying the probability distribution
over the three labels.  On the concrete one-sample batch below the
response entry is exactly
`{sample_id, predicted_species, confidence, measurements}` — it has no
`probabilities` key at all (`app.py` lines 141–146 never emit one). -/
theorem predict_multiple_entry_no_probabilities :
    predict_multiple idScaler constModel
      (J.obj [("samples", J.arr [mkBody4 5 3 2 1])]) =
      (200, J.obj [("total_samples", J.num 1),
        ("predictions", J.arr
          [J.obj [("sample_id", J.num 0),
                  ("predicted_species", J.str "setosa"),
                  ("confidence", J.num 1),
                  ("measurements", mkBody4 5 3 2 1)]])]) ∧
    hasKey (J.obj [("sample_id", J.num 0),
                   ("predicted_species", J.str "setosa"),
                   ("confidence", J.num 1),
                   ("measurements", mkBody4 5 3 2 1)]) "probabilities" = false :=
  ⟨rfl, rfl⟩

/-- C6 amended: every successful per-sample entry of a `/predict_multiple`
response carries its zero-based `sample_id`, the predicted label, a
`confidence` equal to the maximum of the three class probabilities the
classifier computed, and the raw sample echo — but not the probability
distribution itself: the entry has no `probabilities` key. -/
theorem predict_multiple_entry_shape (scaler : Scaler) (model : Model)
    (samples : List J) (hne : samples ≠ [])
    (hgood : ∀ s ∈ samples, goodSample scaler model s) :
    predict_multiple scaler model (J.obj [("samples", J.arr samples)]) =
      (200, J.obj [("total_samples", J.num (samples.length : ℚ)),
                   ("predictions", J.arr (entriesFrom scaler model samples 0))]) ∧
    ∀ k (hk : k < samples.length), ∃ v,
      sampleNums (samples.get ⟨k, hk⟩) = some v ∧
      (entriesFrom scaler model samples 0).get
          ⟨k, by rw [entriesFrom_length]; exact hk⟩ =
        J.obj [("sample_id", J.num (k : ℚ)),
               ("predicted_species",
                 J.str (speciesName (model.predict (scaler.transform v)))),
               ("confidence",
                 J.num (max3 (model.predict_proba (scaler.transform v)))),
               ("measurements", samples.get ⟨k, hk⟩)] ∧
      hasKey ((entriesFrom scaler model samples 0).get
          ⟨k, by rw [entriesFrom_length]; exact hk⟩) "probabilities" = false := by
  refine ⟨predict_multiple_ok scaler model samples hne hgood, fun k hk => ?_⟩
  obtain ⟨v, hv, _⟩ := hgood (samples.get ⟨k, hk⟩) (samples.get_mem k hk)
  refine ⟨v, hv, ?_, ?_⟩
  · rw [entriesFrom_get scaler model samples 0 k hk]
    have hv' : (sampleNums (samples.get ⟨k, hk⟩)).getD (0, 0, 0, 0) = v := by
      rw [hv]; rfl
    rw [hv']
    simp [sampleEntry]
  · rw [entriesFrom_get scaler model samples 0 k hk]
    exact hasKey_sampleEntry_proba _ _ _ _

/-- Witness for the amended C6 on a one-sample batch. -/
theorem predict_multiple_entry_shape_witness :
    ([mkBody4 5 3 2 1] : List J) ≠ [] ∧
    (∀ s ∈ ([mkBody4 5 3 2 1] : List J), goodSample idScaler constModel s) ∧
    predict_multiple idScaler constModel
      (J.obj [("samples", J.arr [mkBody4 5 3 2 1])]) =
      (200, J.obj [("total_samples", J.num (1 : ℚ)),
        ("predictions", J.arr (entriesFrom idScaler constModel [mkBody4 5 3 2 1] 0))]) := by
  have hg : ∀ s ∈ ([mkBody4 5 3 2 1] : List J), goodSample idScaler constModel s := by
    intro s hs
    rcases List.mem_cons.mp hs with rfl | hs2
    · exact ⟨(5, 3, 2, 1), rfl, by decide⟩
    · exact absurd hs2 (List.not_mem_nil s)
  refine ⟨by simp, hg, ?_⟩
  have h := (predict_multiple_entry_shape idScaler constModel
    [mkBody4 5 3 2 1] (by simp) hg).1
  simpa using h

/-- A sample mapping that lacks at least one of the four required feature
keys (the batch loop's `sample['...']` lookup then raises `KeyError`). -/
def missingField (s : J) : Prop :=
  ∃ kvs, s = J.obj kvs ∧ ∃ f ∈ required_features, jLookup kvs f = none

lemma processSample_missing_err (scaler : Scaler) (model : Model) (i : ℕ)
    (s : J) (h : missingField s) :
    ∃ m, processSample scaler model i s = .error m := by
  obtain ⟨kvs, rfl, f, hf, hnone⟩ := h
  have herr : pyGetItem (J.obj kvs) f = .error ("KeyError: " ++ f) := by
    simp [pyGetItem, hnone]
  simp only [required_features, List.mem_cons, List.not_mem_nil, or_false] at hf
  unfold processSample
  rcases hf with rfl | rfl | rfl | rfl
  · rw [herr]; exact ⟨_, rfl⟩
  · cases h1 : pyGetItem (J.obj kvs) "sepal_length" with
    | error e => exact ⟨_, rfl⟩
    | ok v1 => rw [herr]; exact ⟨_, rfl⟩
  · cases h1 : pyGetItem (J.obj kvs) "sepal_length" with
    | error e => exact ⟨_, rfl⟩
    | ok v1 =>
      cases h2 : pyGetItem (J.obj kvs) "sepal_width" with
      | error e => exact ⟨_, rfl⟩
      | ok v2 => rw [herr]; exact ⟨_, rfl⟩
  · cases h1 : pyGetItem (J.obj kvs) "sepal_length" with
    | error e => exact ⟨_, rfl⟩
    | ok v1 =>
      cases h2 : pyGetItem (J.obj kvs) "sepal_width" with
      | error e => exact ⟨_, rfl⟩
      | ok v2 =>
        cases h3 : pyGetItem (J.obj kvs) "petal_length" with
        | error e => exact ⟨_, rfl⟩
        | ok v3 => rw [herr]; exact ⟨_, rfl⟩

lemma processSamples_err (scaler : Scaler) (model : Model) (samples : List J)
    (h : ∃ s ∈ samples, missingField s) :
    ∀ i, ∃ m, processSamples scaler model samples i = .error m := by
  induction samples with
  | nil =>
    obtain ⟨s, hs, _⟩ := h
    exact absurd hs (List.not_mem_nil s)
  | cons a rest ih =>
    intro i
    cases hpa : processSample scaler model i a with
    | error e =>
      refine ⟨e, ?_⟩
      unfold processSamples
      rw [hpa]
    | ok entry =>
      obtain ⟨s, hs, hmiss⟩ := h
      rcases List.mem_cons.mp hs with rfl | hs'
      · obtain ⟨m, hm⟩ := processSample_missing_err scaler model i s hmiss
        rw [hpa] at hm
        exact absurd hm (by simp)
      · obtain ⟨m, hm⟩ := ih ⟨s, hs', hmiss⟩ (i + 1)
        refine ⟨m, ?_⟩
        unfold processSamples
        rw [hpa, hm]

/-- C5: the batch pipeline is not fault-isolated: whenever one sample of
the batch lacks a required key, `/predict_multiple` answers a single
HTTP 500 batch-level error and its body carries no `predictions` key at
all — no per-sample results survive, not even for samples processed
successfully before the failing one. -/
theorem predict_multiple_batch_abort (scaler : Scaler) (model : Model)
    (samples : List J) (h : ∃ s ∈ samples, missingField s) :
    ∃ m, predict_multiple scaler model (J.obj [("samples", J.arr samples)]) =
        (500, J.obj [("error", J.str "Batch prediction failed"),
                     ("message", J.str m)]) ∧
      hasKey (predict_multiple scaler model
        (J.obj [("samples", J.arr samples)])).2 "predictions" = false := by
  obtain ⟨a, l, rfl⟩ : ∃ a l, samples = a :: l := by
    cases samples with
    | nil =>
      obtain ⟨s, hs, _⟩ := h
      exact absurd hs (List.not_mem_nil s)
    | cons a l => exact ⟨a, l, rfl⟩
  obtain ⟨m, hm⟩ := processSamples_err scaler model (a :: l) h 0
  have h2 : predictMultipleTry scaler model
      (J.obj [("samples", J.arr (a :: l))]) = .error m := by
    have hred : predictMultipleTry scaler model
        (J.obj [("samples", J.arr (a :: l))]) =
        (match processSamples scaler model (a :: l) 0 with
         | .error e => .error e
         | .ok results =>
           .ok (200, J.obj [("total_samples", J.num (results.length : ℚ)),
                            ("predictions", J.arr results)])) := rfl
    rw [hred, hm]
  refine ⟨m, ?_, ?_⟩
  · unfold predict_multiple
    rw [h2]
  · unfold predict_multiple
    rw [h2]
    rfl

/-- Witness for C5: a batch whose first sample is fine and whose second
sample lacks `sepal_width`; the whole batch fails with one 500 error. -/
theorem predict_multiple_batch_abort_witness :
    (∃ s ∈ ([mkBody4 5 3 2 1, J.obj [("sepal_length", J.num 5)]] : List J),
      missingField s) ∧
    ∃ m, predict_multiple idScaler constModel
        (J.obj [("samples",
          J.arr [mkBody4 5 3 2 1, J.obj [("sepal_length", J.num 5)]])]) =
        (500, J.obj [("error", J.str "Batch prediction failed"),
                     ("message", J.str m)]) := by
  have h : ∃ s ∈ ([mkBody4 5 3 2 1, J.obj [("sepal_length", J.num 5)]] : List J),
      missingField s :=
    ⟨J.obj [("sepal_length", J.num 5)],
     List.mem_cons_of_mem _ (List.mem_cons_self _ _),
     ⟨[("sepal_length", J.num 5)], rfl,
      ⟨"sepal_width", by simp [required_features], rfl⟩⟩⟩
  obtain ⟨m, hm, _⟩ := predict_multiple_batch_abort idScaler constModel
    [mkBody4 5 3 2 1, J.obj [("sepal_length", J.num 5)]] h
  exact ⟨h, m, hm⟩

/-- C1: for every feature vector whose four values lie within the
RangeProfile's closed intervals, given the external collaborator contracts
(the classifier yields a class index below 3, so the response succeeds,
and its probability row sums to 1 within 1e-6), the `/predict` response is
HTTP 200 with a `predicted_species` drawn from
{setosa, versicolor, virginica}, a `confidence` equal to the maximum of
the three emitted probability values, and emitted probability values
summing to 1 within 1e-6. -/
theorem predict_in_range_success (scaler : Scaler) (model : Model)
    (sl sw pl pw : ℚ) (hr : rangeOk sl sw pl pw)
    (hidx : model.predict (scaler.transform (sl, sw, pl, pw)) < 3)
    (hdist : |(model.predict_proba (scaler.transform (sl, sw, pl, pw))).1 +
      (model.predict_proba (scaler.transform (sl, sw, pl, pw))).2.1 +
      (model.predict_proba (scaler.transform (sl, sw, pl, pw))).2.2 - 1| ≤
        1 / 1000000) :
    (predict scaler model (mkBody4 sl sw pl pw)).1 = 200 ∧
    getKey (predict scaler model (mkBody4 sl sw pl pw)).2 "predicted_species" ∈
      [some (J.str "setosa"), some (J.str "versicolor"),
       some (J.str "virginica")] ∧
    getKey (predict scaler model (mkBody4 sl sw pl pw)).2 "confidence" =
      some (J.num (max3 (model.predict_proba (scaler.transform (sl, sw, pl, pw))))) ∧
    getKey (predict scaler model (mkBody4 sl sw pl pw)).2 "probabilities" =
      some (J.obj
        [("setosa", J.num (model.predict_proba (scaler.transform (sl, sw, pl, pw))).1),
         ("versicolor", J.num (model.predict_proba (scaler.transform (sl, sw, pl, pw))).2.1),
         ("virginica", J.num (model.predict_proba (scaler.transform (sl, sw, pl, pw))).2.2)]) ∧
    |(model.predict_proba (scaler.transform (sl, sw, pl, pw))).1 +
      (model.predict_proba (scaler.transform (sl, sw, pl, pw))).2.1 +
      (model.predict_proba (scaler.transform (sl, sw, pl, pw))).2.2 - 1| ≤
        1 / 1000000 := by
  rw [predict_mkBody4_ok scaler model sl sw pl pw hr hidx]
  exact ⟨rfl, by
    show getKey (successResp sl sw pl pw _ _) "predicted_species" ∈ _
    rw [show getKey (successResp sl sw pl pw
        (model.predict_proba (scaler.transform (sl, sw, pl, pw)))
        (speciesName (model.predict (scaler.transform (sl, sw, pl, pw)))))
        "predicted_species" =
        some (J.str (speciesName (model.predict (scaler.transform (sl, sw, pl, pw)))))
      from rfl]
    exact speciesName_optmem _, rfl, rfl, hdist⟩

/-- Witness for C1 at the classic setosa exemplar with the identity
scaler and the constant (1, 0, 0) classifier. -/
theorem predict_in_range_success_witness :
    rangeOk 5 3 2 1 ∧
    constModel.predict (idScaler.transform (5, 3, 2, 1)) < 3 ∧
    |(constModel.predict_proba (idScaler.transform (5, 3, 2, 1))).1 +
      (constModel.predict_proba (idScaler.transform (5, 3, 2, 1))).2.1 +
      (constModel.predict_proba (idScaler.transform (5, 3, 2, 1))).2.2 - 1| ≤
        1 / 1000000 ∧
    (predict idScaler constModel (mkBody4 5 3 2 1)).1 = 200 ∧
    getKey (predict idScaler constModel (mkBody4 5 3 2 1)).2 "predicted_species" ∈
      [some (J.str "setosa"), some (J.str "versicolor"), some (J.str "virginica")] := by
  have hdist : |(constModel.predict_proba (idScaler.transform (5, 3, 2, 1))).1 +
      (constModel.predict_proba (idScaler.transform (5, 3, 2, 1))).2.1 +
      (constModel.predict_proba (idScaler.transform (5, 3, 2, 1))).2.2 - 1| ≤
        1 / 1000000 := by
    show |(1 : ℚ) + 0 + 0 - 1| ≤ 1 / 1000000
    norm_num
  have h := predict_in_range_success idScaler constModel 5 3 2 1
    (by decide) (by decide) hdist
  exact ⟨by decide, by decide, hdist, h.1, h.2.1⟩
